import Mathlib

/-!
Verification of the CRT-television portfolio interaction core
(`src/components/CRTMonitor.tsx`, `src/components/RotaryDial.tsx`,
`src/components/TVControls.tsx`, `src/lib/githubApi.ts`,
`src/lib/channelData.ts`).

The React component state of `CRTMonitor` is embedded as an explicit
record `TV`; each event handler becomes a pure function from the old
state to the new state together with the list of sound-feedback calls
it makes.  Pending `setTimeout` callbacks are embedded explicitly:
boot-complete and shutdown-complete timers are untracked in the source
(never cancelled), so they are counted; the display-update timer lives
in the single ref `staticTimeoutRef`, which the source clears and
reassigns, so it is a single `Option` slot carrying the channel the
callback will display.  Angles in the rotary dial are embedded as
rationals.
-/

namespace CRT

/-- Channel record from `src/lib/channelData.ts`. -/
structure Channel where
  number : Int
  name : String
  label : String
  icon : String
deriving Repr, DecidableEq

/-- The static channel list from `src/lib/channelData.ts` (`channels`). -/
def channels : List Channel :=
  [ ⟨1, "about", "About Me", "👤"⟩,
    ⟨2, "experience", "Experience", "💼"⟩,
    ⟨3, "skills", "Skills", "⚡"⟩,
    ⟨4, "projects", "Projects", "📂"⟩,
    ⟨5, "proof-of-work", "Proof of Work", "📊"⟩,
    ⟨6, "quotes", "Quotes", "💬"⟩,
    ⟨7, "blog", "Blog/Writing", "✍️"⟩,
    ⟨8, "contact", "Contact", "📡"⟩ ]

/-- The value `channels.length` as it appears in the guards and clamps. -/
def channelsLength : Int := channels.length

/-- Sound-feedback calls from `src/lib/soundEffects.ts` observed by the
handlers in `CRTMonitor.tsx` and `RotaryDial.tsx`. -/
inductive Sound where
  | powerOn
  | powerOff
  | channelBeep
  | staticNoise
  | dialClick
deriving Repr, DecidableEq

/-- The React state of `CRTMonitor` together with its pending timers.
`bootTimers` / `shutdownTimers` count the pending (uncancellable)
`setTimeout` callbacks scheduled by `handlePowerToggle`;
`staticTimer` is `staticTimeoutRef.current`, carrying the channel `ch`
captured by the scheduled callback. -/
structure TV where
  isPoweredOn : Bool
  isBooting : Bool
  isShuttingDown : Bool
  currentChannel : Int
  displayChannel : Int
  showStatic : Bool
  greenMode : Bool
  bootTimers : Nat
  shutdownTimers : Nat
  staticTimer : Option Int
deriving Repr, DecidableEq

/-- The four power states named by the specification, derived from the
three booleans of `CRTMonitor` (`isPoweredOn`, `isBooting`,
`isShuttingDown`). -/
inductive PowerState where
  | off
  | booting
  | on
  | shuttingDown
deriving Repr, DecidableEq

/-- Power state read off a `TV` state: `Off` when `isPoweredOn` is
false; otherwise `Booting` while `isBooting`, `ShuttingDown` while
`isShuttingDown`, else `On`. -/
def powerStateOf (s : TV) : PowerState :=
  if s.isPoweredOn then
    if s.isBooting then .booting
    else if s.isShuttingDown then .shuttingDown
    else .on
  else .off

/-- Embedding of `handlePowerToggle` (CRTMonitor.tsx lines 65–87).  When powered on
it plays the power-off sound, sets `isShuttingDown` and schedules a
700ms shutdown-complete timeout; otherwise it plays the power-on
sound, sets `isPoweredOn` and `isBooting` and schedules a 2500ms
boot-complete timeout.  There is no guard on `isBooting` or
`isShuttingDown`. -/
def handlePowerToggle (s : TV) : TV × List Sound :=
  if s.isPoweredOn then
    ({ s with isShuttingDown := true, shutdownTimers := s.shutdownTimers + 1 },
     [Sound.powerOff])
  else
    ({ s with isPoweredOn := true, isBooting := true, bootTimers := s.bootTimers + 1 },
     [Sound.powerOn])

/-- The shutdown-complete timeout callback body (CRTMonitor.tsx lines
72–76): clears `isPoweredOn`, `isShuttingDown` and `isBooting`. -/
def shutdownTimerFire (s : TV) : TV :=
  { s with isPoweredOn := false, isShuttingDown := false, isBooting := false,
           shutdownTimers := s.shutdownTimers - 1 }

/-- The boot-complete timeout callback body (CRTMonitor.tsx lines
83–85): clears `isBooting`. -/
def bootTimerFire (s : TV) : TV :=
  { s with isBooting := false, bootTimers := s.bootTimers - 1 }

/-- Embedding of `handlePowerLongPress` (CRTMonitor.tsx lines 131–136): toggles
`greenMode` and plays the confirmation beep, with no power-state
guard. -/
def handlePowerLongPress (s : TV) : TV × List Sound :=
  ({ s with greenMode := !s.greenMode }, [Sound.channelBeep])

/-- The clamp `Math.max(1, Math.min(newChannel, channels.length))`
from CRTMonitor.tsx line 145. -/
def clampCh (newChannel : Int) : Int :=
  max 1 (min newChannel channelsLength)

/-- Embedding of `handleChannelChange` (CRTMonitor.tsx lines 139–166).  Guard:
`!isPoweredOn || isBooting || newChannel === currentChannel` (the raw
target, before clamping).  On acceptance it clamps, plays beep and
static, shows the static overlay, sets `currentChannel`, clears any
pending display-update timeout and schedules a new 300ms one whose
callback captures the clamped channel `ch`. -/
def handleChannelChange (newChannel : Int) (s : TV) : TV × List Sound :=
  if !s.isPoweredOn || s.isBooting || newChannel == s.currentChannel then
    (s, [])
  else
    let ch := clampCh newChannel
    ({ s with showStatic := true, currentChannel := ch, staticTimer := some ch },
     [Sound.channelBeep, Sound.staticNoise])

/-- The display-update timeout callback body (CRTMonitor.tsx lines
160–163): hides the static overlay and sets `displayChannel` to the
channel captured when the timeout was scheduled. -/
def staticTimerFire (s : TV) : TV :=
  match s.staticTimer with
  | some ch => { s with showStatic := false, displayChannel := ch, staticTimer := none }
  | none => s

/-! ### Rotary dial gesture mapper (`src/components/RotaryDial.tsx`) -/

/-- Events emitted by the rotary dial: a channel-change request sent to
`onChannelChange`, and the `playDialClick` feedback call. -/
inductive DialEvent where
  | step (channel : Int)
  | click
deriving Repr, DecidableEq

/-- The refs and rotation state of `RotaryDial`: `isDragging`,
`lastAngle`, `accumulatedRotation` (degrees, embedded as rationals)
and the free-running visual `rotation`. -/
structure Dial where
  isDragging : Bool
  lastAngle : ℚ
  accumulatedRotation : ℚ
  rotation : ℚ
deriving Repr, DecidableEq

/-- The constant `degreesPerChannel = 360 / totalChannels` (RotaryDial.tsx line 35). -/
def degreesPerChannel (totalChannels : Nat) : ℚ :=
  360 / (totalChannels : ℚ)

/-- The two sequential wraparound adjustments of RotaryDial.tsx lines
77–81: `delta = currentAngle - lastAngle`, then subtract 360 if
`delta > 180`, then add 360 if `delta < -180`. -/
def normalizeDelta (currentAngle lastAngle : ℚ) : ℚ :=
  let delta := currentAngle - lastAngle
  let delta := if delta > 180 then delta - 360 else delta
  if delta < -180 then delta + 360 else delta

/-- The wrapping step formula of RotaryDial.tsx lines 91–92:
`((currentChannel - 1 + direction + totalChannels) % totalChannels) + 1`.
JavaScript `%` is the remainder with the sign of the dividend; for the
operands arising here the dividend is nonnegative, where it agrees
with `Int.emod`. -/
def dialStep (currentChannel direction totalChannels : Int) : Int :=
  ((currentChannel - 1 + direction + totalChannels) % totalChannels) + 1

/-- Embedding of `handlePointerMove` (RotaryDial.tsx lines 72–105): ignore when not
dragging; otherwise add the normalized delta to the accumulated
rotation and the visual rotation, update `lastAngle`, and if the
absolute accumulated rotation has reached `degreesPerChannel`, emit
one channel-step event in the sign direction, play the dial click and
reset the accumulated rotation to 0. -/
def handlePointerMove (totalChannels : Nat) (currentChannel : Int)
    (currentAngle : ℚ) (d : Dial) : Dial × List DialEvent :=
  if !d.isDragging then (d, [])
  else
    let delta := normalizeDelta currentAngle d.lastAngle
    let acc := d.accumulatedRotation + delta
    let d' : Dial :=
      { d with accumulatedRotation := acc, lastAngle := currentAngle,
               rotation := d.rotation + delta }
    if |acc| ≥ degreesPerChannel totalChannels then
      let direction : Int := if acc > 0 then 1 else -1
      let newChannel := dialStep currentChannel direction (totalChannels : Int)
      ({ d' with accumulatedRotation := 0 },
       [DialEvent.step newChannel, DialEvent.click])
    else (d', [])

/-- Embedding of `handlePointerDown` (RotaryDial.tsx lines 59–67): start dragging,
record the pointer angle, reset the accumulated rotation. -/
def handlePointerDown (currentAngle : ℚ) (d : Dial) : Dial :=
  { d with isDragging := true, lastAngle := currentAngle,
           accumulatedRotation := 0 }

/-! ### Keyboard / button channel stepping -/

/-- The arrow-up/right target of CRTMonitor.tsx lines 177–179 (also
`handleChannelUp` in TVControls.tsx):
`currentChannel >= channels.length ? 1 : currentChannel + 1`. -/
def keyStepUp (currentChannel : Int) : Int :=
  if currentChannel ≥ channelsLength then 1 else currentChannel + 1

/-- The arrow-down/left target of CRTMonitor.tsx lines 184–186 (also
`handleChannelDown` in TVControls.tsx):
`currentChannel <= 1 ? channels.length : currentChannel - 1`. -/
def keyStepDown (currentChannel : Int) : Int :=
  if currentChannel ≤ 1 then channelsLength else currentChannel - 1

/-! ### Power button long-press logic (`src/components/TVControls.tsx`) -/

/-- The refs of the power button in `TVControls`:
`longPressTriggered` and whether `powerPressTimer` holds a pending
3000ms timeout. -/
structure PowerButton where
  longPressTriggered : Bool
  timerPending : Bool
deriving Repr, DecidableEq

/-- Embedding of `handlePowerDown` (TVControls.tsx lines 65–71): clear
`longPressTriggered` and schedule the 3000ms long-press timeout. -/
def handlePowerDown (_b : PowerButton) : PowerButton :=
  { longPressTriggered := false, timerPending := true }

/-- The long-press timeout callback (TVControls.tsx lines 67–70): when
the timer is still pending, set `longPressTriggered` and invoke
`onPowerLongPress` — which is `handlePowerLongPress` of `CRTMonitor` —
on the TV state, with no check of the power state. -/
def longPressTimerFire (b : PowerButton) (tv : TV) :
    PowerButton × TV × List Sound :=
  if b.timerPending then
    let (tv', snds) := handlePowerLongPress tv
    (⟨true, false⟩, tv', snds)
  else (b, tv, [])

/-- Embedding of `handlePowerUp` (TVControls.tsx lines 73–81): cancel the pending
long-press timeout; if the long press has not fired, invoke
`onPowerToggle` — `handlePowerToggle` of `CRTMonitor`. -/
def handlePowerUp (b : PowerButton) (tv : TV) :
    PowerButton × TV × List Sound :=
  let b' : PowerButton := { b with timerPending := false }
  if !b.longPressTriggered then
    let (tv', snds) := handlePowerToggle tv
    (b', tv', snds)
  else (b', tv, [])

/-! ### Channel-change request sequences (for the coalescing policy) -/

/-- State after a list of `handleChannelChange` calls, in order. -/
def chanSeq (targets : List Int) (s : TV) : TV :=
  targets.foldl (fun s t => (handleChannelChange t s).1) s

/-- Every call in the list passes the acceptance guard of
`handleChannelChange` at the state it meets: powered on, not booting,
target different from the current channel. -/
def acceptedAll (s : TV) : List Int → Bool
  | [] => true
  | t :: ts =>
      (s.isPoweredOn && !s.isBooting && t != s.currentChannel) &&
        acceptedAll (handleChannelChange t s).1 ts

end CRT

/-! ### GitHub data fetch helpers (`src/lib/githubApi.ts`) -/

namespace GitHubApi

/-- The `PinnedRepo` record shape from githubApi.ts. -/
structure PinnedRepo where
  owner : String
  name : String
  fullName : String
  description : Option String
  language : Option String
  stars : Int
  forks : Int
  url : String
deriving Repr, DecidableEq

/-- The `ContributionDay` record shape from githubApi.ts. -/
structure ContributionDay where
  date : String
  count : Int
  level : Int
deriving Repr, DecidableEq

/-- The `ContributionWeek` record shape from githubApi.ts. -/
structure ContributionWeek where
  days : List ContributionDay
deriving Repr, DecidableEq

/-- The `ContributionData` record shape from githubApi.ts. -/
structure ContributionData where
  weeks : List ContributionWeek
  totalContributions : Int
deriving Repr, DecidableEq

/-- Outcome of one `fetch` call as the helpers observe it: either the
call (or the body parse) throws, or a response arrives with its `ok`
flag and parsed JSON body.  The body fields read off the JSON are
embedded as `Option`s (`data.repos` / `data.weeks` /
`data.totalContributions` may be absent). -/
inductive FetchResult (α : Type) where
  | failure : FetchResult α
  | response (ok : Bool) (body : α) : FetchResult α
deriving Repr, DecidableEq

/-- The fetch outcome makes the `try` block throw: a network failure,
or a non-ok status (which the helpers turn into a thrown `Error`). -/
def throws {α : Type} : FetchResult α → Bool
  | .failure => true
  | .response ok _ => !ok

/-- Embedding of `generateEmptyCalendar` (githubApi.ts lines 98–118): 53 weeks of 7
days, every day with `count = 0` and `level = 0`.  The date strings
come from `Date` arithmetic on the current year, abstracted here as a
function of the day offset `w * 7 + d`. -/
def generateEmptyCalendar (dateAt : Nat → String) : List ContributionWeek :=
  (List.range 53).map fun w =>
    ⟨(List.range 7).map fun d => ⟨dateAt (w * 7 + d), 0, 0⟩⟩

/-- Embedding of `fetchPinnedRepos` (githubApi.ts lines 60–72): on a thrown error
(network failure or non-ok status) return `[]`; otherwise return
`data.repos || []`. -/
def fetchPinnedRepos (r : FetchResult (Option (List PinnedRepo))) :
    List PinnedRepo :=
  match r with
  | .failure => []
  | .response ok body => if ok then body.getD [] else []

/-- Embedding of `fetchContributionData` (githubApi.ts lines 78–95): on a thrown
error return `{ weeks: generateEmptyCalendar(), totalContributions: 0 }`;
otherwise `{ weeks: data.weeks || [], totalContributions:
data.totalContributions || 0 }`. -/
def fetchContributionData (dateAt : Nat → String)
    (r : FetchResult (Option (List ContributionWeek) × Option Int)) :
    ContributionData :=
  match r with
  | .failure => ⟨generateEmptyCalendar dateAt, 0⟩
  | .response ok body =>
      if ok then ⟨body.1.getD [], body.2.getD 0⟩
      else ⟨generateEmptyCalendar dateAt, 0⟩

/-- A calendar is zeroed when every day of every week has `count = 0`
and `level = 0`. -/
def zeroedCalendar (weeks : List ContributionWeek) : Bool :=
  weeks.all fun w => w.days.all fun d => d.count == 0 && d.level == 0

end GitHubApi

/-! ### Helper lemmas and concrete states -/

namespace CRT

/-- Whether a dial event is a channel-step request (as opposed to the
click feedback). -/
def DialEvent.isStep : DialEvent → Bool
  | .step _ => true
  | .click => false

/-- A state in the middle of the boot sequence: `handlePowerToggle`
from off has set `isPoweredOn` and `isBooting` and the 2500ms
boot-complete timeout is pending. -/
def bootingTV : TV :=
  ⟨true, true, false, 1, 1, false, false, 1, 0, none⟩

/-- A state in the middle of the shutdown animation: `handlePowerToggle`
from on has set `isShuttingDown` and the 700ms shutdown-complete
timeout is pending; `isPoweredOn` is still true until it fires. -/
def shuttingDownTV : TV :=
  ⟨true, false, true, 1, 1, false, false, 0, 1, none⟩

/-- A powered-on, idle state on channel 1. -/
def onTV : TV :=
  ⟨true, false, false, 1, 1, false, false, 0, 0, none⟩

/-- A powered-on, idle state on channel 8 (the last channel). -/
def onTV8 : TV :=
  ⟨true, false, false, 8, 8, false, false, 0, 0, none⟩

/-- A powered-off state with `greenMode` set. -/
def offGreenTV : TV :=
  ⟨false, false, false, 1, 1, false, true, 0, 0, none⟩

lemma powerStateOf_booting_isPoweredOn {s : TV}
    (h : powerStateOf s = .booting) : s.isPoweredOn = true := by
  cases hip : s.isPoweredOn with
  | false => simp [powerStateOf, hip] at h
  | true => rfl

lemma powerStateOf_shuttingDown_isPoweredOn {s : TV}
    (h : powerStateOf s = .shuttingDown) : s.isPoweredOn = true := by
  cases hip : s.isPoweredOn with
  | false => simp [powerStateOf, hip] at h
  | true => rfl

lemma powerStateOf_off_isPoweredOn {s : TV}
    (h : powerStateOf s = .off) : s.isPoweredOn = false := by
  cases hip : s.isPoweredOn with
  | false => rfl
  | true =>
      cases hb : s.isBooting with
      | true => simp [powerStateOf, hip, hb] at h
      | false =>
          cases hsd : s.isShuttingDown <;>
            simp [powerStateOf, hip, hb, hsd] at h

lemma powerStateOf_booting_isBooting {s : TV}
    (h : powerStateOf s = .booting) : s.isBooting = true := by
  have hip := powerStateOf_booting_isPoweredOn h
  cases hb : s.isBooting with
  | true => rfl
  | false =>
      cases hsd : s.isShuttingDown <;>
        simp [powerStateOf, hip, hb, hsd] at h

lemma powerStateOf_on_fields {s : TV} (h : powerStateOf s = .on) :
    s.isPoweredOn = true ∧ s.isBooting = false := by
  cases hip : s.isPoweredOn with
  | false => simp [powerStateOf, hip] at h
  | true =>
      cases hb : s.isBooting with
      | true => simp [powerStateOf, hip, hb] at h
      | false => exact ⟨rfl, rfl⟩

end CRT

open CRT GitHubApi

/-! ### Claim C1 — PowerToggle during Booting / ShuttingDown -/

/-- Claim C1, counterexample.  In the booting state (`isPoweredOn` and
`isBooting` both set), delivering a PowerToggle intent is not a no-op:
it takes the power-off branch, so the state changes (`isShuttingDown`
becomes true, starting the shutdown animation) and an additional
shutdown-complete timer is scheduled, refuting the claim that the
state is unchanged and no such timer is scheduled. -/
theorem C1_powerToggle_booting_counterexample :
    powerStateOf bootingTV = .booting ∧
    (handlePowerToggle bootingTV).1 ≠ bootingTV ∧
    (handlePowerToggle bootingTV).1.isShuttingDown = true ∧
    bootingTV.isShuttingDown = false ∧
    (handlePowerToggle bootingTV).1.shutdownTimers =
      bootingTV.shutdownTimers + 1 := by
  decide

/-- Claim C1, amended: `handlePowerToggle` has no guard on `isBooting`
or `isShuttingDown`; since `isPoweredOn` is true in both the Booting
and the ShuttingDown state, delivering PowerToggle there takes the
power-off branch — it plays the power-off sound, sets
`isShuttingDown`, and schedules an additional shutdown-complete
timer. -/
theorem C1_powerToggle_booting_or_shuttingDown (s : TV)
    (h : powerStateOf s = .booting ∨ powerStateOf s = .shuttingDown) :
    handlePowerToggle s =
      ({ s with isShuttingDown := true,
                shutdownTimers := s.shutdownTimers + 1 },
       [Sound.powerOff]) := by
  have hip : s.isPoweredOn = true := by
    rcases h with h | h
    · exact powerStateOf_booting_isPoweredOn h
    · exact powerStateOf_shuttingDown_isPoweredOn h
  simp [handlePowerToggle, hip]

/-- Witness for the amended claim C1 at the concrete booting state. -/
theorem C1_powerToggle_booting_or_shuttingDown_witness :
    powerStateOf bootingTV = .booting ∧
    handlePowerToggle bootingTV =
      ({ bootingTV with isShuttingDown := true,
                        shutdownTimers := bootingTV.shutdownTimers + 1 },
       [Sound.powerOff]) :=
  ⟨by decide,
   C1_powerToggle_booting_or_shuttingDown bootingTV (Or.inl (by decide))⟩

/-! ### Claim C2 — channel changes while not on -/

/-- Claim C2, counterexample.  The guard of `handleChannelChange` is
`!isPoweredOn || isBooting`, which does not cover the ShuttingDown
state (where `isPoweredOn` is still true): a request issued while
shutting down is accepted — `currentChannel` changes and feedback is
played — refuting the claim that it is rejected in every non-On
state. -/
theorem C2_channelChange_shuttingDown_counterexample :
    powerStateOf shuttingDownTV = .shuttingDown ∧
    (handleChannelChange 2 shuttingDownTV).1.currentChannel = 2 ∧
    shuttingDownTV.currentChannel = 1 ∧
    (handleChannelChange 2 shuttingDownTV).2 ≠ [] := by
  decide

/-- Claim C2, amended: `requestChannelChange` is rejected as a no-op —
state unchanged and no feedback played — while the power state is
`Off` or `Booting`; the guard does not check `isShuttingDown`, so
requests during ShuttingDown are processed normally. -/
theorem C2_channelChange_rejected_off_or_booting (s : TV) (t : Int)
    (h : powerStateOf s = .off ∨ powerStateOf s = .booting) :
    handleChannelChange t s = (s, []) := by
  rcases h with h | h
  · have hip := powerStateOf_off_isPoweredOn h
    simp [handleChannelChange, hip]
  · have hb := powerStateOf_booting_isBooting h
    simp [handleChannelChange, hb]

/-- Witness for the amended claim C2 at a concrete powered-off state. -/
theorem C2_channelChange_rejected_witness :
    powerStateOf offGreenTV = .off ∧
    handleChannelChange 5 offGreenTV = (offGreenTV, []) :=
  ⟨by decide,
   C2_channelChange_rejected_off_or_booting offGreenTV 5 (Or.inl (by decide))⟩

/-! ### Claim C4 — clamping and the equality no-op check -/

/-- Claim C4, counterexample.  `handleChannelChange` compares the raw
target with `currentChannel` before clamping: with power On on
channel 8 (= N), the request for channel 9 clamps to 8 =
`currentChannel`, yet it is not a no-op — feedback is played, the
static overlay is shown, and a display-update timer is scheduled —
refuting the claim that the operation is a no-op whenever the clamped
target equals `currentChannel`. -/
theorem C4_clamped_equality_counterexample :
    powerStateOf onTV8 = .on ∧
    clampCh 9 = onTV8.currentChannel ∧
    (handleChannelChange 9 onTV8).2 ≠ [] ∧
    (handleChannelChange 9 onTV8).1.showStatic = true ∧
    (handleChannelChange 9 onTV8).1.staticTimer = some 8 := by
  decide

/-- Claim C4, amended: with power On, `requestChannelChange(target)`
is a no-op exactly when the unclamped `target` equals
`currentChannel`; otherwise the target is clamped into `[1, N]` and
`currentChannel` is set to the clamped value, with beep and static
feedback and a new display-update timer — even when the clamped value
equals `currentChannel`. -/
theorem C4_channelChange_on (s : TV) (t : Int)
    (hOn : powerStateOf s = .on) :
    (t = s.currentChannel → handleChannelChange t s = (s, [])) ∧
    (t ≠ s.currentChannel →
      handleChannelChange t s =
        ({ s with showStatic := true, currentChannel := clampCh t,
                  staticTimer := some (clampCh t) },
         [Sound.channelBeep, Sound.staticNoise])) := by
  obtain ⟨hip, hb⟩ := powerStateOf_on_fields hOn
  constructor
  · intro ht
    simp [handleChannelChange, hip, hb, ht]
  · intro ht
    simp [handleChannelChange, hip, hb, ht]

/-- Witness for the amended claim C4 at the powered-on state on
channel 1, with the no-op target 1 and the accepted target 5. -/
theorem C4_channelChange_on_witness :
    powerStateOf onTV = .on ∧
    handleChannelChange 1 onTV = (onTV, []) ∧
    handleChannelChange 5 onTV =
      ({ onTV with showStatic := true, currentChannel := clampCh 5,
                   staticTimer := some (clampCh 5) },
       [Sound.channelBeep, Sound.staticNoise]) :=
  ⟨by decide,
   (C4_channelChange_on onTV 1 (by decide)).1 (by decide),
   (C4_channelChange_on onTV 5 (by decide)).2 (by decide)⟩

/-! ### Claim C5 — channel stepping formula and wraparound -/

/-- Claim C5: for every current channel in `[1, N]` and direction
`±1`, the conditional stepping used by the keyboard handler and the
channel up/down buttons requests exactly
`((current - 1 + direction + N) % N) + 1`, the wrapping formula used
by the rotary dial; in particular stepping `+1` from channel `N`
yields `1` and stepping `-1` from channel `1` yields `N`. -/
theorem C5_step_formula (c : Int) (h1 : 1 ≤ c) (h2 : c ≤ channelsLength) :
    keyStepUp c = dialStep c 1 channelsLength ∧
    keyStepDown c = dialStep c (-1) channelsLength ∧
    dialStep channelsLength 1 channelsLength = 1 ∧
    dialStep 1 (-1) channelsLength = channelsLength := by
  have hN : channelsLength = 8 := by decide
  rw [hN] at h2
  refine ⟨?_, ?_, by decide, by decide⟩
  · rw [hN]
    unfold keyStepUp dialStep
    rw [hN]
    interval_cases c <;> decide
  · rw [hN]
    unfold keyStepDown dialStep
    rw [hN]
    interval_cases c <;> decide

/-- Witness for claim C5 at channel 8 (the wraparound case). -/
theorem C5_step_formula_witness :
    keyStepUp 8 = dialStep 8 1 channelsLength ∧
    keyStepDown 8 = dialStep 8 (-1) channelsLength ∧
    dialStep channelsLength 1 channelsLength = 1 ∧
    dialStep 1 (-1) channelsLength = channelsLength := by
  have h := C5_step_formula 8 (by decide) (by decide)
  have hN : channelsLength = 8 := by decide
  rw [hN] at h
  rw [hN]
  exact h

/-! ### Claim C8 — greenMode survives power cycles -/

/-- Claim C8: starting from any powered-off state, the full power
cycle Off → Booting → On → ShuttingDown → Off (two power toggles with
the boot-complete and shutdown-complete timers firing in between)
passes through exactly those power states and leaves `greenMode`
unchanged; moreover none of the three power-state transition functions
ever modifies `greenMode`, for any state. -/
theorem C8_greenMode_power_cycle (s : TV) (h : powerStateOf s = .off)
    (hsd : s.isShuttingDown = false) :
    powerStateOf (handlePowerToggle s).1 = .booting ∧
    powerStateOf (bootTimerFire (handlePowerToggle s).1) = .on ∧
    powerStateOf
      (handlePowerToggle (bootTimerFire (handlePowerToggle s).1)).1 =
        .shuttingDown ∧
    powerStateOf
      (shutdownTimerFire
        (handlePowerToggle (bootTimerFire (handlePowerToggle s).1)).1) =
        .off ∧
    (shutdownTimerFire
      (handlePowerToggle (bootTimerFire (handlePowerToggle s).1)).1).greenMode =
        s.greenMode ∧
    (∀ u : TV, (handlePowerToggle u).1.greenMode = u.greenMode) ∧
    (∀ u : TV, (bootTimerFire u).greenMode = u.greenMode) ∧
    (∀ u : TV, (shutdownTimerFire u).greenMode = u.greenMode) := by
  have hip := powerStateOf_off_isPoweredOn h
  refine ⟨?_, ?_, ?_, ?_, ?_, ?_, ?_, ?_⟩
  · simp [handlePowerToggle, bootTimerFire, shutdownTimerFire, powerStateOf, hip, hsd]
  · simp [handlePowerToggle, bootTimerFire, shutdownTimerFire, powerStateOf, hip, hsd]
  · simp [handlePowerToggle, bootTimerFire, shutdownTimerFire, powerStateOf, hip, hsd]
  · simp [handlePowerToggle, bootTimerFire, shutdownTimerFire, powerStateOf, hip, hsd]
  · simp [handlePowerToggle, bootTimerFire, shutdownTimerFire, hip, hsd]
  · intro u
    unfold handlePowerToggle
    split <;> rfl
  · intro u
    rfl
  · intro u
    rfl

/-- Witness for claim C8 at the powered-off state with `greenMode`
set. -/
theorem C8_greenMode_power_cycle_witness :
    powerStateOf offGreenTV = .off ∧
    (shutdownTimerFire
      (handlePowerToggle
        (bootTimerFire (handlePowerToggle offGreenTV).1)).1).greenMode =
      offGreenTV.greenMode :=
  ⟨by decide,
   (C8_greenMode_power_cycle offGreenTV (by decide) (by decide)).2.2.2.2.1⟩

/-! ### Claim C10 — long press is not gated on power -/

/-- Claim C10: for every TV state — in particular any powered-off
state — pressing the power button (`handlePowerDown` schedules the
3000ms long-press timeout) and holding until the timeout fires invokes
`handlePowerLongPress`, which toggles `greenMode` and plays the
confirmation beep; nothing in this path reads the power state, so the
result is the same for every value of `isPoweredOn`, and the remaining
TV fields are untouched. -/
theorem C10_longPress_ungated (tv : TV) (b : PowerButton) :
    longPressTimerFire (handlePowerDown b) tv =
      (⟨true, false⟩, { tv with greenMode := !tv.greenMode },
       [Sound.channelBeep]) := by
  rfl

/-! ### Claim C3 — rapid requests coalesce to the last target -/

namespace CRT

lemma chanSeq_nil (s : TV) : chanSeq [] s = s := rfl

lemma chanSeq_cons (t : Int) (ts : List Int) (s : TV) :
    chanSeq (t :: ts) s = chanSeq ts (handleChannelChange t s).1 := rfl

lemma channelChange_displayChannel (t : Int) (s : TV) :
    (handleChannelChange t s).1.displayChannel = s.displayChannel := by
  unfold handleChannelChange
  split <;> rfl

lemma chanSeq_displayChannel (ts : List Int) (s : TV) :
    (chanSeq ts s).displayChannel = s.displayChannel := by
  induction ts generalizing s with
  | nil => rfl
  | cons t ts ih =>
      rw [chanSeq_cons, ih, channelChange_displayChannel]

lemma channelChange_accepted_staticTimer (t : Int) (s : TV)
    (h : (s.isPoweredOn && !s.isBooting && t != s.currentChannel) = true) :
    (handleChannelChange t s).1.staticTimer = some (clampCh t) := by
  simp only [Bool.and_eq_true, bne_iff_ne, Bool.not_eq_true'] at h
  obtain ⟨⟨hip, hb⟩, ht⟩ := h
  simp [handleChannelChange, hip, hb, ht]

lemma acceptedAll_chanSeq_staticTimer (pre : List Int) (t : Int) (s : TV)
    (h : acceptedAll s (pre ++ [t]) = true) :
    (chanSeq (pre ++ [t]) s).staticTimer = some (clampCh t) := by
  induction pre generalizing s with
  | nil =>
      rw [List.nil_append] at h
      unfold acceptedAll at h
      rw [Bool.and_eq_true] at h
      exact channelChange_accepted_staticTimer t s h.1
  | cons p pre ih =>
      rw [List.cons_append] at h
      unfold acceptedAll at h
      rw [Bool.and_eq_true] at h
      rw [List.cons_append, chanSeq_cons]
      exact ih _ h.2

end CRT

/-- Claim C3: for every non-empty sequence of channel-change requests
each of which passes the acceptance guard of `handleChannelChange`,
every accepted call overwrites the pending display-update timer slot
with its own clamped target, so after the whole sequence the single
surviving timer carries the last call's target; `displayChannel` is
never touched by the requests themselves, and when the surviving timer
fires, `displayChannel` becomes the last call's clamped target and the
static-overlay flag (`transitioning`) is cleared.  No intermediate
target is ever assigned to `displayChannel`. -/
theorem C3_rapid_requests_coalesce (s : TV) (pre : List Int) (t : Int)
    (h : acceptedAll s (pre ++ [t]) = true) :
    (chanSeq (pre ++ [t]) s).staticTimer = some (clampCh t) ∧
    (chanSeq (pre ++ [t]) s).displayChannel = s.displayChannel ∧
    (staticTimerFire (chanSeq (pre ++ [t]) s)).displayChannel = clampCh t ∧
    (staticTimerFire (chanSeq (pre ++ [t]) s)).showStatic = false := by
  have hst := acceptedAll_chanSeq_staticTimer pre t s h
  refine ⟨hst, chanSeq_displayChannel _ s, ?_, ?_⟩
  · unfold staticTimerFire
    rw [hst]
  · unfold staticTimerFire
    rw [hst]

/-- Witness for claim C3: from the powered-on state on channel 1, the
rapid sequence of requests for channels 3 then 5 leaves a single
pending timer for channel 5, and firing it displays channel 5 — the
intermediate target 3 is never displayed. -/
theorem C3_rapid_requests_coalesce_witness :
    acceptedAll onTV ([3] ++ [5]) = true ∧
    (chanSeq ([3] ++ [5]) onTV).staticTimer = some (clampCh 5) ∧
    (chanSeq ([3] ++ [5]) onTV).displayChannel = onTV.displayChannel ∧
    (staticTimerFire (chanSeq ([3] ++ [5]) onTV)).displayChannel = clampCh 5 ∧
    (staticTimerFire (chanSeq ([3] ++ [5]) onTV)).showStatic = false :=
  ⟨by decide, C3_rapid_requests_coalesce onTV [3] 5 (by decide)⟩

/-! ### Claim C6 — one step per threshold crossing -/

/-- Claim C6: during a drag, when the accumulated delta after a move
reaches or exceeds the threshold `degreesPerChannel = 360 / N` in
absolute value, `handlePointerMove` emits exactly one step event — in
the sign direction of the accumulated delta — together with one dial
click, and resets the accumulated delta to 0; in particular the event
list contains exactly one step, never two, however large the single
move was. -/
theorem C6_threshold_single_step (n : Nat) (c : Int) (a : ℚ) (d : Dial)
    (hd : d.isDragging = true)
    (h : |d.accumulatedRotation + normalizeDelta a d.lastAngle| ≥
          degreesPerChannel n) :
    handlePointerMove n c a d =
      ({ d with lastAngle := a, accumulatedRotation := 0,
                rotation := d.rotation + normalizeDelta a d.lastAngle },
       [DialEvent.step
          (dialStep c
            (if d.accumulatedRotation + normalizeDelta a d.lastAngle > 0
             then 1 else -1) n),
        DialEvent.click]) ∧
    (handlePointerMove n c a d).2.countP (fun e => e.isStep) = 1 := by
  have heq : handlePointerMove n c a d =
      ({ d with lastAngle := a, accumulatedRotation := 0,
                rotation := d.rotation + normalizeDelta a d.lastAngle },
       [DialEvent.step
          (dialStep c
            (if d.accumulatedRotation + normalizeDelta a d.lastAngle > 0
             then 1 else -1) n),
        DialEvent.click]) := by
    unfold handlePointerMove
    rw [hd]
    simp only [Bool.not_true, Bool.false_eq_true, if_false, if_pos h]
  refine ⟨heq, ?_⟩
  rw [heq]
  rfl

/-- Witness for claim C6: with `N = 8` (threshold 45°), a single move
of +89° from a fresh drag emits exactly one step event (to channel 2
from channel 1) plus one click, and resets the accumulated delta. -/
theorem C6_threshold_single_step_witness :
    (⟨true, 0, 0, 0⟩ : Dial).isDragging = true ∧
    |(⟨true, 0, 0, 0⟩ : Dial).accumulatedRotation +
        normalizeDelta 89 (⟨true, 0, 0, 0⟩ : Dial).lastAngle| ≥
      degreesPerChannel 8 ∧
    handlePointerMove 8 1 89 ⟨true, 0, 0, 0⟩ =
      (⟨true, 89, 0, 89⟩, [DialEvent.step 2, DialEvent.click]) ∧
    (handlePointerMove 8 1 89 ⟨true, 0, 0, 0⟩).2.countP
        (fun e => e.isStep) = 1 := by
  have h := C6_threshold_single_step 8 1 89 ⟨true, 0, 0, 0⟩ rfl
    (by norm_num [normalizeDelta, degreesPerChannel])
  refine ⟨rfl, by norm_num [normalizeDelta, degreesPerChannel], ?_, h.2⟩
  rw [h.1]
  norm_num [normalizeDelta, dialStep, Prod.ext_iff]

/-! ### Claim C7 — range of the normalized angle delta -/

/-- Claim C7, counterexample.  With both angles in `(-180, 180]` the
adjusted delta can be exactly `-180`: for `newAngle = 0` and
`lastAngle = 180` the raw delta is `-180`, neither adjustment fires
(`-180` is not `< -180`), and the result `-180` lies outside the
half-open interval `(-180, 180]` the claim states. -/
theorem C7_delta_boundary_counterexample :
    (-180 : ℚ) < 0 ∧ (0 : ℚ) ≤ 180 ∧
    (-180 : ℚ) < 180 ∧ (180 : ℚ) ≤ 180 ∧
    normalizeDelta 0 180 = -180 ∧
    ¬(-180 < normalizeDelta 0 180) := by
  norm_num [normalizeDelta]

/-- Claim C7, amended: for consecutive angles `a` (new) and `b`
(last), each in `(-180, 180]`, the delta `a - b` after the two
adjustments (subtract 360 if `> 180`, add 360 if `< -180`) lies in the
closed interval `[-180, 180]`; the lower endpoint `-180` is
attainable, so the interval cannot be sharpened to be half-open
below. -/
theorem C7_delta_range (a b : ℚ) (ha1 : -180 < a) (ha2 : a ≤ 180)
    (hb1 : -180 < b) (hb2 : b ≤ 180) :
    -180 ≤ normalizeDelta a b ∧ normalizeDelta a b ≤ 180 := by
  unfold normalizeDelta
  dsimp only
  split_ifs with h1 h2 h3 <;> constructor <;> linarith

/-- Witness for the amended claim C7 at the boundary pair
`newAngle = 0`, `lastAngle = 180`. -/
theorem C7_delta_range_witness :
    (-180 : ℚ) < 0 ∧ (0 : ℚ) ≤ 180 ∧
    (-180 : ℚ) < 180 ∧ (180 : ℚ) ≤ 180 ∧
    (-180 ≤ normalizeDelta 0 180 ∧ normalizeDelta 0 180 ≤ 180) :=
  ⟨by norm_num, by norm_num, by norm_num, by norm_num,
   C7_delta_range 0 180 (by norm_num) (by norm_num) (by norm_num) (by norm_num)⟩

/-! ### Claim C9 — fetch helpers degrade to empty/zeroed results -/

namespace GitHubApi

lemma zeroedCalendar_generateEmptyCalendar (dateAt : Nat → String) :
    zeroedCalendar (generateEmptyCalendar dateAt) = true := by
  simp [zeroedCalendar, generateEmptyCalendar, List.all_eq_true]

end GitHubApi

/-- Claim C9: whenever the underlying HTTP call fails (throws) or the
response status is not ok, `fetchPinnedRepos` returns the empty list,
and `fetchContributionData` returns `totalContributions = 0` together
with the generated empty calendar, all of whose day counts and levels
are 0 — no error is propagated to the caller. -/
theorem C9_fetch_failure_degrades (dateAt : Nat → String)
    (rp : FetchResult (Option (List PinnedRepo)))
    (rc : FetchResult (Option (List ContributionWeek) × Option Int))
    (hp : throws rp = true) (hc : throws rc = true) :
    fetchPinnedRepos rp = [] ∧
    (fetchContributionData dateAt rc).totalContributions = 0 ∧
    (fetchContributionData dateAt rc).weeks = generateEmptyCalendar dateAt ∧
    zeroedCalendar (fetchContributionData dateAt rc).weeks = true := by
  constructor
  · cases rp with
    | failure => rfl
    | response ok body =>
        simp only [throws, Bool.not_eq_true'] at hp
        simp [fetchPinnedRepos, hp]
  · cases rc with
    | failure =>
        exact ⟨rfl, rfl, zeroedCalendar_generateEmptyCalendar dateAt⟩
    | response ok body =>
        simp only [throws, Bool.not_eq_true'] at hc
        simp [fetchContributionData, hc,
              zeroedCalendar_generateEmptyCalendar]

/-- Witness for claim C9 at a failing fetch for both helpers. -/
theorem C9_fetch_failure_degrades_witness :
    throws (FetchResult.failure : FetchResult (Option (List PinnedRepo))) =
      true ∧
    fetchPinnedRepos FetchResult.failure = [] ∧
    (fetchContributionData (fun _ => "") FetchResult.failure).totalContributions
      = 0 ∧
    zeroedCalendar
      (fetchContributionData (fun _ => "") FetchResult.failure).weeks = true :=
  have h := C9_fetch_failure_degrades (fun _ => "")
    FetchResult.failure FetchResult.failure rfl rfl
  ⟨rfl, h.1, h.2.1, h.2.2.2⟩
